import Mathlib

/-!
Shallow embedding of the essay-tutor core (`src/agent/essay_tutor.py`).

The Python module defines two dataclasses (`Message`, `EssaySession`) and a
class `EssayTutor` holding an in-memory dict of sessions keyed by session id.
We embed dicts as association lists preserving Python's insertion-order and
assign-in-place semantics, timestamps (`datetime.now()`) as `Nat` values
supplied by the caller, and the remote OpenAI completion call as a function
parameter `remote : List ChatMsg → Except String String` (`Except.error e`
models the `except Exception as e` path, with `e` standing for `str(e)`).
-/

/-- Embeds the `Message` dataclass: role ("user" or "assistant"), content,
and creation timestamp. -/
structure Message where
  role : String
  content : String
  timestamp : Nat
deriving Repr, DecidableEq

/-- Embeds the `EssaySession` dataclass with its field defaults
(`topic=None`, `messages` defaulting to the empty list via `__post_init__`,
`current_stage="topic_selection"`). -/
structure EssaySession where
  session_id : String
  topic : Option String := none
  messages : List Message := []
  current_stage : String := "topic_selection"
deriving Repr, DecidableEq

/-- Association-list lookup, embedding Python dict lookup / `in`. -/
def alistGet {α β : Type} [DecidableEq α] : List (α × β) → α → Option β
  | [], _ => none
  | (k, v) :: rest, key => if k = key then some v else alistGet rest key

/-- Association-list update, embedding Python dict assignment
`d[key] = v` (replaces in place if the key exists, appends otherwise). -/
def alistSet {α β : Type} [DecidableEq α] : List (α × β) → α → β → List (α × β)
  | [], key, v => [(key, v)]
  | (k, w) :: rest, key, v =>
      if k = key then (key, v) :: rest else (k, w) :: alistSet rest key v

/-- Embeds the `EssayTutor` object state: the stored api key and the
`sessions` dict.  The OpenAI client object carries no observable state
beyond the key, so it is not modelled separately. -/
structure EssayTutor where
  api_key : String
  sessions : List (String × EssaySession)
deriving Repr, DecidableEq

/-- The fixed system prompt assigned in `EssayTutor.__init__`. -/
def system_prompt : String :=
  "You are an expert essay writing tutor. Your role is to help students learn how to write effective essays through a structured, step-by-step approach.\n\nYour teaching methodology:\n1. Start by helping students choose a clear, focused topic\n2. Guide them through brainstorming ideas and organizing thoughts\n3. Help them create a structured outline\n4. Assist with writing clear, coherent paragraphs\n5. Provide feedback on revision and improvement\n\nKey principles to emphasize:\n- Clear thesis statements\n- Logical organization and flow\n- Strong topic sentences\n- Supporting evidence and examples\n- Proper transitions between ideas\n- Conclusion that reinforces the main argument\n\nBe encouraging, patient, and specific in your feedback. Ask clarifying questions when needed and provide concrete suggestions for improvement. Always maintain a supportive, educational tone."

/-- The `ValueError` message raised by `EssayTutor.__init__` when no key is
available (the spec's ConfigurationError). -/
def keyErrorMsg : String :=
  "OpenAI API key is required. Set OPENAI_API_KEY environment variable or pass it to the constructor."

/-- Embeds `EssayTutor.__init__(api_key)`.  `api_key` is the optional
constructor argument; `env_key` models the result of
`os.getenv(\"OPENAI_API_KEY\")` (`none` when the variable is unset).
Python's `api_key or os.getenv(...)` treats the empty string as falsy, and
`if not self.api_key: raise ValueError(...)` likewise. -/
def EssayTutor.init (api_key env_key : Option String) : Except String EssayTutor :=
  let key : Option String :=
    match api_key with
    | some s => if s = "" then env_key else some s
    | none => env_key
  match key with
  | some s => if s = "" then .error keyErrorMsg else .ok { api_key := s, sessions := [] }
  | none => .error keyErrorMsg

/-- Embeds `EssayTutor.create_session`: inserts a fresh `EssaySession` for
the id and returns it together with the updated tutor state. -/
def EssayTutor.create_session (t : EssayTutor) (session_id : String) :
    EssaySession × EssayTutor :=
  let session : EssaySession := { session_id := session_id }
  (session, { t with sessions := alistSet t.sessions session_id session })

/-- A role/content pair as sent to the completion API (one element of the
`messages` list built in `get_response`). -/
structure ChatMsg where
  role : String
  content : String
deriving Repr, DecidableEq

/-- Projection of a stored `Message` to the outbound role/content dict. -/
def Message.toChat (m : Message) : ChatMsg := ⟨m.role, m.content⟩

/-- Embeds the request-assembly part of `get_response` (lines 84–91): the
system prompt followed by `session.messages[-10:]` with role and content
kept verbatim.  Python's `[-10:]` on a list of length `n` is the suffix
obtained by dropping `n - 10` elements (all of the list when `n ≤ 10`),
which `List.drop` with truncated subtraction reproduces exactly. -/
def build_request (msgs : List Message) : List ChatMsg :=
  ⟨"system", system_prompt⟩ :: (msgs.drop (msgs.length - 10)).map Message.toChat

/-- The fixed prefix of the synthesized error reply in `get_response`. -/
def errorReplyPre : String := "Sorry, I encountered an error: "

/-- Embeds `EssayTutor.get_response(session_id, user_message)`.
`remote` is the opaque `client.chat.completions.create` call (its fixed
decoding parameters are not observable here); `now1` and `now2` are the two
`datetime.now()` instants.  Returns the reply text and the updated state. -/
def EssayTutor.get_response (t : EssayTutor)
    (remote : List ChatMsg → Except String String)
    (session_id user_message : String) (now1 now2 : Nat) :
    String × EssayTutor :=
  let t :=
    if (alistGet t.sessions session_id).isSome then t
    else (t.create_session session_id).2
  let session := (alistGet t.sessions session_id).getD { session_id := session_id }
  let session :=
    { session with messages := session.messages ++ [⟨"user", user_message, now1⟩] }
  let t := { t with sessions := alistSet t.sessions session_id session }
  let request := build_request session.messages
  match remote request with
  | .ok assistant_response =>
      let session :=
        { session with
          messages := session.messages ++ [⟨"assistant", assistant_response, now2⟩] }
      (assistant_response, { t with sessions := alistSet t.sessions session_id session })
  | .error e =>
      let error_msg := errorReplyPre ++ e
      let session :=
        { session with
          messages := session.messages ++ [⟨"assistant", error_msg, now2⟩] }
      (error_msg, { t with sessions := alistSet t.sessions session_id session })

/-- Embeds `EssayTutor.get_session_history`: the session's message list
(`.copy()` — value semantics here; reference semantics is modelled
separately below), or the empty list for an unknown id. -/
def EssayTutor.get_session_history (t : EssayTutor) (session_id : String) :
    List Message :=
  match alistGet t.sessions session_id with
  | none => []
  | some s => s.messages

/-- Embeds `EssayTutor.get_session_info`: `self.sessions.get(session_id)`. -/
def EssayTutor.get_session_info (t : EssayTutor) (session_id : String) :
    Option EssaySession :=
  alistGet t.sessions session_id

/-- Embeds `EssayTutor.reset_session`: replace an existing session by a
fresh one under the same id and return `true`; return `false` otherwise. -/
def EssayTutor.reset_session (t : EssayTutor) (session_id : String) :
    Bool × EssayTutor :=
  if (alistGet t.sessions session_id).isSome then
    (true, { t with sessions := alistSet t.sessions session_id { session_id := session_id } })
  else
    (false, t)

/-- Iterates `get_response` over a list of (user text, now1, now2) inputs
against one session id, returning the final tutor state. -/
def run_responds (remote : List ChatMsg → Except String String) (sid : String) :
    EssayTutor → List (String × Nat × Nat) → EssayTutor
  | t, [] => t
  | t, (txt, n1, n2) :: rest =>
      run_responds remote sid (t.get_response remote sid txt n1 n2).2 rest

/-- Checks that a message list is a sequence of user/assistant pairs:
user, assistant, user, assistant, …, starting with user. -/
def alternating : List Message → Bool
  | [] => true
  | [_] => false
  | u :: a :: rest => u.role == "user" && a.role == "assistant" && alternating rest

/-- Every stored session's `session_id` field equals the dict key it is
stored under. -/
def sessionsWF (t : EssayTutor) : Prop :=
  ∀ p ∈ t.sessions, p.2.session_id = p.1

/-!
### Reference-semantics model of the read operations

Python returns objects by reference.  `get_session_history` ends in
`.messages.copy()` (a fresh list object) while `get_session_info` returns
`self.sessions.get(session_id)` (the stored `EssaySession` object itself).
To settle whether the read results are detached from stored state we model
the relevant object graph explicitly: list objects and session objects
live in heaps addressed by `Nat` references.
-/

/-- Models a Python `EssaySession` object whose `messages` list is held by
reference into the list heap. -/
structure PySession where
  session_id : String
  topic : Option String
  current_stage : String
  messagesRef : Nat
deriving Repr, DecidableEq

/-- The object graph relevant to the read operations: a heap of list
objects, a heap of session objects, and the tutor's `sessions` dict mapping
ids to session-object references; `nextRef` is the next unused reference. -/
structure RefState where
  nextRef : Nat
  msgLists : List (Nat × List Message)
  sessionObjs : List (Nat × PySession)
  sessions : List (String × Nat)
deriving Repr, DecidableEq

/-- Embeds `get_session_history` under reference semantics: an unknown id
returns a fresh empty list object (`return []` allocates), a known id
returns a fresh list object holding a copy of the session's messages
(`.copy()`).  The result is the new object's reference plus the state. -/
def refGetHistory (st : RefState) (session_id : String) : Nat × RefState :=
  match alistGet st.sessions session_id with
  | none =>
      (st.nextRef,
       { st with
           nextRef := st.nextRef + 1
           msgLists := alistSet st.msgLists st.nextRef [] })
  | some sref =>
      let content :=
        match alistGet st.sessionObjs sref with
        | none => []
        | some s => (alistGet st.msgLists s.messagesRef).getD []
      (st.nextRef,
       { st with
           nextRef := st.nextRef + 1
           msgLists := alistSet st.msgLists st.nextRef content })

/-- Embeds `get_session_info` under reference semantics:
`self.sessions.get(session_id)` hands back the stored session object's
reference, not a copy. -/
def refGetInfo (st : RefState) (session_id : String) : Option Nat :=
  alistGet st.sessions session_id

/-- A caller-side mutation of a Python list object: append in place. -/
def refListAppend (st : RefState) (r : Nat) (m : Message) : RefState :=
  match alistGet st.msgLists r with
  | none => st
  | some l => { st with msgLists := alistSet st.msgLists r (l ++ [m]) }

/-- A caller-side mutation of a session object: assign its `topic` field
(as the repository's own tests do with `session.topic = ...`). -/
def refSetTopic (st : RefState) (r : Nat) (topic : Option String) : RefState :=
  match alistGet st.sessionObjs r with
  | none => st
  | some s =>
      { st with sessionObjs := alistSet st.sessionObjs r ({ s with topic := topic }) }

/-- The message contents stored for a session id, read through the object
graph; `none` when the id is unknown. -/
def refStoredMessages (st : RefState) (session_id : String) : Option (List Message) :=
  match alistGet st.sessions session_id with
  | none => none
  | some sref =>
      match alistGet st.sessionObjs sref with
      | none => none
      | some s => some ((alistGet st.msgLists s.messagesRef).getD [])

/-- The topic stored for a session id; `none` when the id is unknown. -/
def refStoredTopic (st : RefState) (session_id : String) : Option (Option String) :=
  match alistGet st.sessions session_id with
  | none => none
  | some sref =>
      match alistGet st.sessionObjs sref with
      | none => none
      | some s => some s.topic

/-- Well-formedness of the object graph: every allocated reference is
below `nextRef`. -/
def RefWF (st : RefState) : Prop :=
  (∀ p ∈ st.msgLists, p.1 < st.nextRef)
  ∧ (∀ p ∈ st.sessionObjs, p.1 < st.nextRef ∧ p.2.messagesRef < st.nextRef)

/-- A concrete object graph: one session "s1" (object reference 0) whose
message list is object reference 1, topic unset. -/
def refDemo : RefState where
  nextRef := 2
  msgLists := [(1, [])]
  sessionObjs := [(0, ⟨"s1", none, "topic_selection", 1⟩)]
  sessions := [("s1", 0)]

/-! ### Association-list lemmas -/

theorem alistGet_set_eq {α β : Type} [DecidableEq α] (l : List (α × β)) (k : α) (v : β) :
    alistGet (alistSet l k v) k = some v := by
  induction l with
  | nil => simp [alistGet, alistSet]
  | cons p rest ih =>
      obtain ⟨k', w⟩ := p
      by_cases h : k' = k <;> simp [alistGet, alistSet, h, ih]

theorem alistGet_set_ne {α β : Type} [DecidableEq α] (l : List (α × β)) (k k' : α) (v : β)
    (h : k' ≠ k) : alistGet (alistSet l k v) k' = alistGet l k' := by
  induction l with
  | nil =>
      simp only [alistSet, alistGet]
      simp [Ne.symm h]
  | cons p rest ih =>
      obtain ⟨k0, w⟩ := p
      by_cases h0 : k0 = k
      · subst h0
        simp [alistGet, alistSet, Ne.symm h, ih]
      · by_cases h1 : k0 = k' <;> simp [alistGet, alistSet, h0, h1, h, ih]

theorem alistSet_set {α β : Type} [DecidableEq α] (l : List (α × β)) (k : α) (v w : β) :
    alistSet (alistSet l k v) k w = alistSet l k w := by
  induction l with
  | nil => simp [alistSet]
  | cons p rest ih =>
      obtain ⟨k0, u⟩ := p
      by_cases h : k0 = k <;> simp [alistSet, h, ih]

/-! ### Closed form of `get_response` -/

theorem history_eq_getD (t : EssayTutor) (sid : String) :
    t.get_session_history sid
      = ((alistGet t.sessions sid).getD { session_id := sid }).messages := by
  unfold EssayTutor.get_session_history
  cases h : alistGet t.sessions sid <;> simp [h]

theorem get_response_closed (t : EssayTutor)
    (remote : List ChatMsg → Except String String)
    (sid txt : String) (n1 n2 : Nat) :
    t.get_response remote sid txt n1 n2 =
      (let s0 : EssaySession := (alistGet t.sessions sid).getD { session_id := sid }
       let log := s0.messages ++ [⟨"user", txt, n1⟩]
       let resp :=
         match remote (build_request log) with
         | .ok r => r
         | .error e => errorReplyPre ++ e
       (resp,
        { t with
            sessions :=
              alistSet t.sessions sid
                ({ s0 with messages := log ++ [⟨"assistant", resp, n2⟩] }) })) := by
  cases h : alistGet t.sessions sid with
  | some s =>
      simp only [EssayTutor.get_response, EssayTutor.create_session, h, Option.isSome_some,
        if_true, Option.getD_some]
      cases hr : remote (build_request (s.messages ++ [⟨"user", txt, n1⟩])) <;>
        simp [hr, alistSet_set]
  | none =>
      simp only [EssayTutor.get_response, EssayTutor.create_session, h, Option.isSome_none,
        Bool.false_eq_true, if_false, alistGet_set_eq, Option.getD_some, Option.getD_none]
      cases hr : remote (build_request ([] ++ [⟨"user", txt, n1⟩])) <;>
        simp [hr, alistSet_set]

theorem alistGet_mem {α β : Type} [DecidableEq α] {l : List (α × β)} {k : α} {v : β}
    (h : alistGet l k = some v) : (k, v) ∈ l := by
  induction l with
  | nil => simp [alistGet] at h
  | cons p rest ih =>
      obtain ⟨k0, w⟩ := p
      by_cases h0 : k0 = k
      · subst h0
        simp [alistGet] at h
        simp [h]
      · simp [alistGet, h0] at h
        exact List.mem_cons_of_mem _ (ih h)

theorem alistSet_mem {α β : Type} [DecidableEq α] {l : List (α × β)} {k : α} {v : β} :
    ∀ p ∈ alistSet l k v, p ∈ l ∨ p = (k, v) := by
  induction l with
  | nil => simp [alistSet]
  | cons q rest ih =>
      obtain ⟨k0, w⟩ := q
      intro p hp
      by_cases h0 : k0 = k
      · subst h0
        simp [alistSet] at hp
        rcases hp with hp | hp
        · right; simp [hp]
        · left; exact List.mem_cons_of_mem _ hp
      · simp [alistSet, h0] at hp
        rcases hp with hp | hp
        · left; simp [hp]
        · rcases ih p hp with h1 | h1
          · left; exact List.mem_cons_of_mem _ h1
          · right; exact h1

/-! ### Derived facts about `get_response` -/

theorem get_response_fst (t : EssayTutor)
    (remote : List ChatMsg → Except String String)
    (sid txt : String) (n1 n2 : Nat) :
    (t.get_response remote sid txt n1 n2).1 =
      match remote (build_request (t.get_session_history sid ++ [⟨"user", txt, n1⟩])) with
      | .ok r => r
      | .error e => errorReplyPre ++ e := by
  rw [get_response_closed, history_eq_getD]

theorem get_response_history_append (t : EssayTutor)
    (remote : List ChatMsg → Except String String)
    (sid txt : String) (n1 n2 : Nat) :
    (t.get_response remote sid txt n1 n2).2.get_session_history sid
      = t.get_session_history sid
        ++ [⟨"user", txt, n1⟩,
            ⟨"assistant", (t.get_response remote sid txt n1 n2).1, n2⟩] := by
  rw [get_response_closed, history_eq_getD]
  simp only [EssayTutor.get_session_history, alistGet_set_eq]
  cases remote (build_request
      (((alistGet t.sessions sid).getD { session_id := sid }).messages
        ++ [⟨"user", txt, n1⟩])) <;>
    cases h : alistGet t.sessions sid <;> simp [h]

theorem get_response_info_isSome (t : EssayTutor)
    (remote : List ChatMsg → Except String String)
    (sid txt : String) (n1 n2 : Nat) :
    ((t.get_response remote sid txt n1 n2).2.get_session_info sid).isSome = true := by
  rw [get_response_closed]
  simp [EssayTutor.get_session_info, alistGet_set_eq]

theorem info_none_history_nil (t : EssayTutor) (sid : String)
    (h : t.get_session_info sid = none) : t.get_session_history sid = [] := by
  unfold EssayTutor.get_session_info at h
  simp [EssayTutor.get_session_history, h]

theorem alternating_append (u a : Message) (hu : u.role = "user")
    (ha : a.role = "assistant") :
    ∀ h : List Message, alternating h = true → alternating (h ++ [u, a]) = true
  | [], _ => by simp [alternating, hu, ha]
  | [x], hx => by simp [alternating] at hx
  | x :: y :: rest, hxy => by
      simp only [alternating, Bool.and_eq_true, beq_iff_eq] at hxy
      have hr := alternating_append u a hu ha rest hxy.2
      simp [alternating, hxy.1.1, hxy.1.2, hr]

theorem run_responds_grows (remote : List ChatMsg → Except String String) (sid : String) :
    ∀ (inputs : List (String × Nat × Nat)) (t : EssayTutor),
      ((run_responds remote sid t inputs).get_session_history sid).length
          = (t.get_session_history sid).length + 2 * inputs.length
      ∧ (alternating (t.get_session_history sid) = true →
          alternating ((run_responds remote sid t inputs).get_session_history sid) = true)
  | [], t => by simp [run_responds]
  | (txt, n1, n2) :: rest, t => by
      have hh := get_response_history_append t remote sid txt n1 n2
      have ih := run_responds_grows remote sid rest (t.get_response remote sid txt n1 n2).2
      constructor
      · rw [run_responds, ih.1, hh]
        simp [List.length_append]
        ring
      · intro halt
        rw [run_responds]
        apply ih.2
        rw [hh]
        exact alternating_append _ _ rfl rfl _ halt

/-! ### Claim theorems -/

/-- C1: if the remote completion call fails with any error, `get_response`
does not propagate the failure: it returns the string
"Sorry, I encountered an error: " followed by the error text, and appends
that same string to the session history as a normal assistant message. -/
theorem respond_swallows_remote_failure (t : EssayTutor)
    (remote : List ChatMsg → Except String String) (e sid txt : String)
    (n1 n2 : Nat) (h : ∀ req, remote req = Except.error e) :
    errorReplyPre = "Sorry, I encountered an error: "
    ∧ (t.get_response remote sid txt n1 n2).1 = errorReplyPre ++ e
    ∧ (t.get_response remote sid txt n1 n2).2.get_session_history sid
        = t.get_session_history sid
          ++ [⟨"user", txt, n1⟩, ⟨"assistant", errorReplyPre ++ e, n2⟩] := by
  have h1 := get_response_fst t remote sid txt n1 n2
  simp only [h] at h1
  have h2 := get_response_history_append t remote sid txt n1 n2
  rw [h1] at h2
  exact ⟨rfl, h1, h2⟩

/-- Witness for C1 at a concrete always-failing remote call. -/
theorem respond_swallows_remote_failure_witness :
    errorReplyPre = "Sorry, I encountered an error: "
    ∧ ((EssayTutor.mk "k" []).get_response (fun _ => Except.error "boom") "s1" "hi" 0 1).1
        = errorReplyPre ++ "boom"
    ∧ ((EssayTutor.mk "k" []).get_response
          (fun _ => Except.error "boom") "s1" "hi" 0 1).2.get_session_history "s1"
        = (EssayTutor.mk "k" []).get_session_history "s1"
          ++ [⟨"user", "hi", 0⟩, ⟨"assistant", errorReplyPre ++ "boom", 1⟩] :=
  respond_swallows_remote_failure (EssayTutor.mk "k" []) (fun _ => Except.error "boom")
    "boom" "s1" "hi" 0 1 (fun _ => rfl)

/-- C2: one call to `get_response` grows the session log by exactly two
messages — first the user message, then the assistant message — on every
execution path, success and failure alike. -/
theorem respond_appends_exactly_two (t : EssayTutor)
    (remote : List ChatMsg → Except String String)
    (sid txt : String) (n1 n2 : Nat) :
    (t.get_response remote sid txt n1 n2).2.get_session_history sid
      = t.get_session_history sid
        ++ [⟨"user", txt, n1⟩,
            ⟨"assistant", (t.get_response remote sid txt n1 n2).1, n2⟩] :=
  get_response_history_append t remote sid txt n1 n2

/-- C3: the outbound request is the fixed system instruction followed by
exactly the last min(M,10) stored messages (M counted after the user
append), in chronological order with roles and contents verbatim;
`get_response` depends on the remote call only at that request, and the
messages outside the window remain in the stored history. -/
theorem respond_request_window (t : EssayTutor)
    (remote rem2 : List ChatMsg → Except String String)
    (sid txt : String) (n1 n2 : Nat)
    (h : remote (build_request (t.get_session_history sid ++ [⟨"user", txt, n1⟩]))
        = rem2 (build_request (t.get_session_history sid ++ [⟨"user", txt, n1⟩]))) :
    t.get_response remote sid txt n1 n2 = t.get_response rem2 sid txt n1 n2
    ∧ (∀ msgs : List Message,
        build_request msgs
            = ⟨"system", system_prompt⟩
              :: (msgs.drop (msgs.length - 10)).map Message.toChat
          ∧ (msgs.drop (msgs.length - 10)).length = min msgs.length 10
          ∧ msgs.take (msgs.length - 10) ++ msgs.drop (msgs.length - 10) = msgs)
    ∧ (∀ m : Message,
        (Message.toChat m).role = m.role ∧ (Message.toChat m).content = m.content)
    ∧ (∃ reply : Message,
        (t.get_response remote sid txt n1 n2).2.get_session_history sid
          = (t.get_session_history sid ++ [⟨"user", txt, n1⟩]) ++ [reply]) := by
  refine ⟨?_, ?_, fun m => ⟨rfl, rfl⟩, ?_⟩
  · rw [history_eq_getD] at h
    simp only [get_response_closed]
    rw [h]
  · intro msgs
    refine ⟨rfl, ?_, List.take_append_drop _ _⟩
    simp only [List.length_drop]
    omega
  · refine ⟨⟨"assistant", (t.get_response remote sid txt n1 n2).1, n2⟩, ?_⟩
    rw [get_response_history_append]
    simp

/-- Witness for C3: window size at a concrete 12-message log with an
agreeing pair of remotes. -/
theorem respond_request_window_witness :
    ((List.replicate 12 (Message.mk "user" "x" 0)).drop
        ((List.replicate 12 (Message.mk "user" "x" 0)).length - 10)).length
      = min (List.replicate 12 (Message.mk "user" "x" 0)).length 10 :=
  ((respond_request_window (EssayTutor.mk "k" []) (fun _ => Except.ok "r")
      (fun _ => Except.ok "r") "s1" "hi" 0 1 rfl).2.1
    (List.replicate 12 (Message.mk "user" "x" 0))).2.1

/-- C4: an unseen session id is never an error: the first call auto-creates
the session, which afterwards holds exactly one user/assistant pair; after
N successful calls the history has exactly 2N messages, alternating user
then assistant, starting with a user message. -/
theorem fresh_session_auto_creation (t : EssayTutor)
    (remote : List ChatMsg → Except String String) (sid : String)
    (inputs : List (String × Nat × Nat))
    (hfresh : t.get_session_info sid = none)
    (hok : ∀ req, ∃ r, remote req = Except.ok r) :
    (∀ txt n1 n2,
        ((t.get_response remote sid txt n1 n2).2.get_session_info sid).isSome = true
        ∧ (t.get_response remote sid txt n1 n2).2.get_session_history sid
            = [⟨"user", txt, n1⟩,
               ⟨"assistant", (t.get_response remote sid txt n1 n2).1, n2⟩])
    ∧ ((run_responds remote sid t inputs).get_session_history sid).length
        = 2 * inputs.length
    ∧ alternating ((run_responds remote sid t inputs).get_session_history sid) = true := by
  have hnil := info_none_history_nil t sid hfresh
  refine ⟨fun txt n1 n2 => ⟨get_response_info_isSome t remote sid txt n1 n2, ?_⟩, ?_, ?_⟩
  · rw [get_response_history_append, hnil]
    rfl
  · rw [(run_responds_grows remote sid inputs t).1, hnil]
    simp
  · exact (run_responds_grows remote sid inputs t).2 (by rw [hnil]; rfl)

/-- Witness for C4: two calls on a fresh session leave four messages. -/
theorem fresh_session_auto_creation_witness :
    ((run_responds (fun _ => Except.ok "r") "s1" (EssayTutor.mk "k" [])
        [("a", 0, 1), ("b", 2, 3)]).get_session_history "s1").length = 2 * 2 :=
  (fresh_session_auto_creation (EssayTutor.mk "k" []) (fun _ => Except.ok "r") "s1"
      [("a", 0, 1), ("b", 2, 3)] rfl (fun _ => ⟨"r", rfl⟩)).2.1

/-- C5: constructing the service with no api-key argument and no
OPENAI_API_KEY in the environment fails immediately with the configuration
error, so no service object (and hence no session) ever exists. -/
theorem construct_without_credential_fails :
    EssayTutor.init none none = Except.error keyErrorMsg
    ∧ ∀ t : EssayTutor, EssayTutor.init none none ≠ Except.ok t := by
  refine ⟨rfl, fun t h => ?_⟩
  simp [EssayTutor.init] at h

theorem sessionsWF_alistSet {l : List (String × EssaySession)} {k : String}
    {v : EssaySession} (hl : ∀ p ∈ l, p.2.session_id = p.1) (hv : v.session_id = k) :
    ∀ p ∈ alistSet l k v, p.2.session_id = p.1 := by
  intro p hp
  rcases alistSet_mem p hp with h1 | h1
  · exact hl p h1
  · rw [h1]
    exact hv

theorem init_ok_sessions {a e : Option String} {t0 : EssayTutor}
    (h : EssayTutor.init a e = Except.ok t0) : t0.sessions = [] := by
  rcases a with _ | s <;> rcases e with _ | s2 <;>
    simp only [EssayTutor.init] at h <;>
    (try split at h) <;> (try split at h) <;> simp_all <;>
    rw [← h]

/-- C6: resetting an existing session returns true and replaces it by a
fresh empty session under the same id: history becomes empty, the stage
returns to "topic_selection", and the topic is cleared. -/
theorem reset_existing_clears (t : EssayTutor) (sid : String)
    (h : (t.get_session_info sid).isSome = true) :
    (t.reset_session sid).1 = true
    ∧ (t.reset_session sid).2.get_session_history sid = []
    ∧ (t.reset_session sid).2.get_session_info sid
        = some ({ session_id := sid, topic := none, messages := [],
                  current_stage := "topic_selection" }) := by
  unfold EssayTutor.get_session_info at h
  unfold EssayTutor.reset_session
  simp [h, EssayTutor.get_session_history, EssayTutor.get_session_info, alistGet_set_eq]

/-- Witness for C6 at a one-session store. -/
theorem reset_existing_clears_witness :
    ((EssayTutor.mk "k" [("s1", { session_id := "s1" })]).reset_session "s1").1 = true :=
  (reset_existing_clears (EssayTutor.mk "k" [("s1", { session_id := "s1" })]) "s1"
    (by decide)).1

/-- C7: resetting an unknown session id returns false, raises nothing, and
leaves the service state completely unchanged; the id still has no
session afterwards. -/
theorem reset_unknown_noop (t : EssayTutor) (sid : String)
    (h : t.get_session_info sid = none) :
    (t.reset_session sid).1 = false
    ∧ (t.reset_session sid).2 = t
    ∧ (t.reset_session sid).2.get_session_info sid = none := by
  unfold EssayTutor.get_session_info at h ⊢
  unfold EssayTutor.reset_session
  simp [h]

/-- Witness for C7 at a store not containing the id. -/
theorem reset_unknown_noop_witness :
    ((EssayTutor.mk "k" [("s2", { session_id := "s2" })]).reset_session "s1").1 = false :=
  (reset_unknown_noop (EssayTutor.mk "k" [("s2", { session_id := "s2" })]) "s1"
    (by decide)).1

/-- C9: the message-handling path never changes a session's topic or stage
(an auto-created session keeps the initial values), whatever the user text
and the remote outcome. -/
theorem respond_preserves_topic_and_stage (t : EssayTutor)
    (remote : List ChatMsg → Except String String)
    (sid txt : String) (n1 n2 : Nat) :
    ((t.get_response remote sid txt n1 n2).2.get_session_info sid).map
        (fun s => (s.topic, s.current_stage))
      = some (match t.get_session_info sid with
              | some s => (s.topic, s.current_stage)
              | none => (none, "topic_selection")) := by
  simp only [get_response_closed]
  unfold EssayTutor.get_session_info
  cases h : alistGet t.sessions sid <;> simp [h, alistGet_set_eq]

/-- C10: every stored session's `session_id` field equals the key it is
stored under; a freshly constructed service satisfies this, and
`create_session`, `get_response` (auto-creation included) and
`reset_session` preserve it. -/
theorem session_id_matches_key (t : EssayTutor)
    (remote : List ChatMsg → Except String String)
    (a e : Option String) (sid txt : String) (n1 n2 : Nat)
    (hwf : sessionsWF t) :
    (∀ t0, EssayTutor.init a e = Except.ok t0 → sessionsWF t0)
    ∧ sessionsWF (t.create_session sid).2
    ∧ sessionsWF (t.get_response remote sid txt n1 n2).2
    ∧ sessionsWF (t.reset_session sid).2 := by
  refine ⟨?_, ?_, ?_, ?_⟩
  · intro t0 h0
    unfold sessionsWF
    rw [init_ok_sessions h0]
    simp
  · unfold sessionsWF
    simp only [EssayTutor.create_session]
    exact @sessionsWF_alistSet t.sessions sid { session_id := sid } hwf rfl
  · unfold sessionsWF
    simp only [get_response_closed]
    cases hg : alistGet t.sessions sid with
    | some s =>
        have hs : s.session_id = sid := hwf _ (alistGet_mem hg)
        simp only [hg, Option.getD_some]
        exact sessionsWF_alistSet hwf hs
    | none =>
        simp only [hg, Option.getD_none]
        exact sessionsWF_alistSet hwf rfl
  · unfold sessionsWF EssayTutor.reset_session
    split
    · exact @sessionsWF_alistSet t.sessions sid { session_id := sid } hwf rfl
    · exact hwf

/-- Witness for C10 at a one-session store with matching key. -/
theorem session_id_matches_key_witness :
    sessionsWF ((EssayTutor.mk "k" [("s1", { session_id := "s1" })]).create_session "s2").2 :=
  (session_id_matches_key (EssayTutor.mk "k" [("s1", { session_id := "s1" })])
      (fun _ => Except.ok "r") (some "k") none "s2" "hi" 0 1
      (by unfold sessionsWF; decide)).2.1

theorem refStoredMessages_fresh_list (st : RefState) (nr n : Nat) (c : List Message)
    (id2 : String) (hwf : RefWF st) (hn : st.nextRef ≤ n) :
    refStoredMessages
        { st with nextRef := nr, msgLists := alistSet st.msgLists n c } id2
      = refStoredMessages st id2 := by
  unfold refStoredMessages
  cases h1 : alistGet st.sessions id2 with
  | none => simp [h1]
  | some sref =>
      cases h2 : alistGet st.sessionObjs sref with
      | none => simp [h1, h2]
      | some s =>
          have hlt : s.messagesRef < st.nextRef := (hwf.2 _ (alistGet_mem h2)).2
          simp [h1, h2,
            alistGet_set_ne st.msgLists n s.messagesRef c (by omega : s.messagesRef ≠ n)]

theorem refGetHistory_eq (st : RefState) (id : String) :
    refGetHistory st id
      = (st.nextRef,
         { st with
             nextRef := st.nextRef + 1
             msgLists := alistSet st.msgLists st.nextRef
               ((refStoredMessages st id).getD []) }) := by
  unfold refGetHistory refStoredMessages
  cases h1 : alistGet st.sessions id with
  | none => simp [h1]
  | some sref =>
      cases h2 : alistGet st.sessionObjs sref with
      | none => simp [h1, h2]
      | some s => simp [h1, h2]

/-- C8: counterexample — `get_session_info` hands back the stored session
object itself, not a detached snapshot: at this concrete state, assigning
a topic on the object it returns changes the topic stored for "s1". -/
theorem session_info_not_detached :
    refGetInfo refDemo "s1" = some 0
    ∧ refStoredTopic refDemo "s1" = some none
    ∧ refStoredTopic
        (refSetTopic refDemo ((refGetInfo refDemo "s1").getD 99) (some "changed")) "s1"
      = some (some "changed") := by
  decide

/-- C8 (amended): the read operations never mutate the session store or the
session objects; `get_session_history` returns a fresh list object holding
a copy of the stored messages (empty for an unknown id), and mutating that
returned list leaves every session's stored messages unchanged;
`get_session_info`, however, returns the stored session object itself (an
alias), not a detached snapshot. -/
theorem reads_are_copies_amended (st : RefState) (id id2 : String) (m : Message)
    (hwf : RefWF st) :
    ((refGetHistory st id).2.sessions = st.sessions
      ∧ (refGetHistory st id).2.sessionObjs = st.sessionObjs)
    ∧ alistGet (refGetHistory st id).2.msgLists (refGetHistory st id).1
        = some ((refStoredMessages st id).getD [])
    ∧ refStoredMessages (refGetHistory st id).2 id2 = refStoredMessages st id2
    ∧ refStoredMessages
        (refListAppend (refGetHistory st id).2 (refGetHistory st id).1 m) id2
      = refStoredMessages st id2
    ∧ refGetInfo st id = alistGet st.sessions id := by
  rw [refGetHistory_eq]
  refine ⟨⟨rfl, rfl⟩, ?_, ?_, ?_, rfl⟩
  · simp [alistGet_set_eq]
  · exact refStoredMessages_fresh_list st (st.nextRef + 1) st.nextRef _ id2 hwf
      (Nat.le_refl _)
  · unfold refListAppend
    simp only [alistGet_set_eq, alistSet_set]
    exact refStoredMessages_fresh_list st (st.nextRef + 1) st.nextRef _ id2 hwf
      (Nat.le_refl _)

/-- Witness for the amended C8 at the concrete object graph. -/
theorem reads_are_copies_amended_witness :
    refStoredMessages
        (refListAppend (refGetHistory refDemo "s1").2 (refGetHistory refDemo "s1").1
          ⟨"user", "x", 0⟩) "s1"
      = refStoredMessages refDemo "s1" :=
  (reads_are_copies_amended refDemo "s1" "s1" ⟨"user", "x", 0⟩
    (by unfold RefWF; decide)).2.2.2.1
